import Mathlib

/-!
Shallow embedding of the serial-terminal connection controller
(`src/index.ts`): the connect/duplex/teardown lifecycle, the read pump
(`processReadableStream`), the write pump with its echo fan-out
(`processWritableStream`), the controller (`processStreams`), the connect
path (`requestNewPort`, `connectToPort`, `getSelectedBaudRate`) and the
terminal sinks (`termInputFromPort`, `termInputFromEcho`).

The JavaScript event loop and the Streams API are modelled by an explicit
environment: each iteration of a pump loop consumes one step record
carrying the values the loop condition reads at that check
(`port.readable` / `port.writable` truthiness, `signal.aborted`) and the
settlement of that iteration's `pipeTo` promise (fulfilled, or rejected
with a DOMException-like error carrying a name and a message).  A pump is
then a pure function from the step list to the trace of observable events
it performs.  Exceptions are values: an async function's rejection is an
`Option JsError` result component.
-/

namespace SerialTerminal

/-- Model of a JavaScript error / DOMException as caught by the pumps:
only its `name` and `message` are inspected by the source. -/
structure JsError where
  name : String
  message : String
deriving DecidableEq

/-- Settlement of one `pipeTo` promise: fulfilled (the pipe completed,
a soft transfer boundary), or rejected with an error. -/
inductive PipeResult
  | completed
  | rejected (e : JsError)
deriving DecidableEq

/-- Text written by `term.writeln` on a read failure (index.ts line 200). -/
def readErrorLine (m : String) : String := "<READ ERROR: " ++ m ++ ">"

/-- Text written by `term.writeln` on a write failure (index.ts line 180). -/
def writeErrorLine (m : String) : String := "<WRITE ERROR: " ++ m ++ ">"

/-- Text written by `term.writeln` on a connect failure (index.ts line
102).  The template literal in the source is `<CONNECT ERROR: ` followed
by the message, with no closing angle bracket. -/
def connectErrorLine (m : String) : String := "<CONNECT ERROR: " ++ m

/-- Text written on a successful open (index.ts line 125). -/
def connectedLine : String := "<CONNECTED>"

/-- Text written at the end of teardown (index.ts line 159). -/
def disconnectedLine : String := "<DISCONNECTED>"

/-- Write method of the `termInputFromPort` sink: every chunk is rendered
to the terminal (index.ts lines 46-50). -/
def termInputFromPort (chunk : List Nat) : List (List Nat) := [chunk]

/-- Write method of the `termInputFromEcho` sink: the chunk is rendered
to the terminal exactly when `echoCheckbox.checked` holds at the moment
this write runs (index.ts lines 51-57). -/
def termInputFromEcho (echoChecked : Bool) (chunk : List Nat) :
    List (List Nat) :=
  if echoChecked then [chunk] else []

/-- Chunks rendered by the echo sink over a session: each delivered chunk
is paired with the value of the echo checkbox at its delivery time. -/
def echoRendered : List (Bool × List Nat) → List (List Nat)
  | [] => []
  | d :: rest => termInputFromEcho d.1 d.2 ++ echoRendered rest

/-- Environment record for one check of the read-pump loop: the
truthiness of `port.readable` and of `streamController.signal.aborted`
at the `while` test, and the settlement the iteration's `pipeTo` would
reach.  (`port` itself is always truthy inside the pump.) -/
structure ReadStep where
  readable : Bool
  aborted : Bool
  result : PipeResult
deriving DecidableEq

/-- Observable actions of the read pump: a `pipeTo` transfer attempt with
its settlement, or a line written to the terminal. -/
inductive ReadEvent
  | transfer (r : PipeResult)
  | writeln (s : String)
deriving DecidableEq

/-- Catch clause of the read pump (index.ts lines 198-202): a rejection
produces a read-error line unless the error is named AbortError; a
fulfilment produces nothing. -/
def readCatchLines : PipeResult → List ReadEvent
  | PipeResult.completed => []
  | PipeResult.rejected e =>
    if e.name != "AbortError" then
      [ReadEvent.writeln (readErrorLine e.message)]
    else []

/-- Embedding of `processReadableStream` (index.ts lines 189-204): loop
while `port.readable` is truthy and the signal is not aborted; await a
`pipeTo` of the readable into `termInputFromPort`; on rejection, write a
read-error line unless the error is named AbortError; then re-test the
loop condition.  The step list is the schedule of loop checks the
environment offers; an empty list ends the run. -/
def processReadableStream : List ReadStep → List ReadEvent
  | [] => []
  | s :: rest =>
    if s.readable && !s.aborted then
      ReadEvent.transfer s.result ::
        (readCatchLines s.result ++ processReadableStream rest)
    else []

/-- Options passed to a `pipeTo` call, as in the source. -/
structure PipeOptions where
  preventClose : Bool
  preventAbort : Bool
  preventCancel : Bool
deriving DecidableEq

/-- Options of the echo fan-out `pipeTo` (index.ts lines 165-170): bound
to the per-iteration `localEchoController` signal, with all three
prevent flags set. -/
def echoPipeOptions : PipeOptions :=
  { preventClose := true, preventAbort := true, preventCancel := true }

/-- Options of the port-write `pipeTo` (index.ts lines 172-177). -/
def portWritePipeOptions : PipeOptions :=
  { preventClose := true, preventAbort := true, preventCancel := true }

/-- Options of the port-read `pipeTo` (index.ts lines 192-197). -/
def portReadPipeOptions : PipeOptions :=
  { preventClose := true, preventAbort := true, preventCancel := true }

/-- Side effects of a `pipeTo` on the streams it connects. -/
structure PipeEffects where
  sourceCancelled : Bool
  destAborted : Bool
  destClosed : Bool
deriving DecidableEq

/-- Per the WHATWG Streams standard, a `pipeTo` interrupted by its abort
signal cancels its source unless `preventCancel` and aborts its
destination unless `preventAbort`. -/
def pipeAbortEffects (o : PipeOptions) : PipeEffects :=
  { sourceCancelled := !o.preventCancel,
    destAborted := !o.preventAbort,
    destClosed := false }

/-- Per the WHATWG Streams standard, a `pipeTo` whose source closes
closes its destination unless `preventClose`. -/
def pipeSourceCloseEffects (o : PipeOptions) : PipeEffects :=
  { sourceCancelled := false,
    destAborted := false,
    destClosed := !o.preventClose }

/-- Environment record for one check of the write-pump loop. -/
structure WriteStep where
  writable : Bool
  aborted : Bool
  result : PipeResult
deriving DecidableEq

/-- Observable actions of the write pump: starting the echo fan-out
`pipeTo` under a fresh per-iteration controller with the recorded
options, the port-write transfer with its settlement, a terminal line,
the `abort` of the iteration's local echo controller, and the awaited
settlement of the echo pipe with its outcome swallowed by `.catch`. -/
inductive WriteEvent
  | echoStart (o : PipeOptions)
  | transfer (r : PipeResult)
  | writeln (s : String)
  | echoAbort
  | echoSettled
deriving DecidableEq

/-- Catch clause of the write pump (index.ts lines 178-181): a rejection
produces a write-error line unless the error is named AbortError; a
fulfilment produces nothing. -/
def writeCatchLines : PipeResult → List WriteEvent
  | PipeResult.completed => []
  | PipeResult.rejected e =>
    if e.name != "AbortError" then
      [WriteEvent.writeln (writeErrorLine e.message)]
    else []

/-- Embedding of `processWritableStream` (index.ts lines 162-187): loop
while `port.writable` is truthy and the signal is not aborted; start the
echo fan-out under a fresh `localEchoController`; await the port-write
`pipeTo`; on rejection write a write-error line unless the error is
named AbortError; in the `finally` block abort the local echo controller
and await the echo pipe's settlement, swallowing its outcome; then
re-test the loop condition. -/
def processWritableStream : List WriteStep → List WriteEvent
  | [] => []
  | s :: rest =>
    if s.writable && !s.aborted then
      WriteEvent.echoStart echoPipeOptions ::
        WriteEvent.transfer s.result ::
        (writeCatchLines s.result ++
          (WriteEvent.echoAbort :: WriteEvent.echoSettled ::
            processWritableStream rest))
    else []

/-- State of the UI affordances mutated by the lifecycle: the `connected`
flag, the connect button's label, and the `disabled` flags of the six
configuration inputs (index.ts lines 117-124 and 151-158). -/
structure UiState where
  connected : Bool
  connectButtonText : String
  baudRateDisabled : Bool
  customBaudRateDisabled : Bool
  dataBitsDisabled : Bool
  parityDisabled : Bool
  stopBitsDisabled : Bool
  flowControlDisabled : Bool
deriving DecidableEq

/-- UI state before a connection and after a completed teardown. -/
def disconnectedUi : UiState :=
  { connected := false, connectButtonText := "Connect",
    baudRateDisabled := false, customBaudRateDisabled := false,
    dataBitsDisabled := false, parityDisabled := false,
    stopBitsDisabled := false, flowControlDisabled := false }

/-- UI state set by `connectToPort` after a successful open. -/
def connectedUi : UiState :=
  { connected := true, connectButtonText := "Disconnect",
    baudRateDisabled := true, customBaudRateDisabled := true,
    dataBitsDisabled := true, parityDisabled := true,
    stopBitsDisabled := true, flowControlDisabled := true }

/-- Actions `processStreams` performs in program order on its own async
frame.  Read-pump events are wrapped in `readEv`; the write pump runs
concurrently with the read pump, so its events carry no order relative
to this trace and are kept in a separate component of `RunResult`. -/
inductive RunEvent
  | readEv (e : ReadEvent)
  | abortScope
  | awaitWritePump
  | closeCall
  | uiReset
  | writeln (s : String)
deriving DecidableEq

/-- Outcome of one run of `processStreams`: the ordered trace of the
controller frame, the write pump's event trace, the rejection escaping
the async function if any, and the final UI state. -/
structure RunResult where
  ctrlTrace : List RunEvent
  writeTrace : List WriteEvent
  escape : Option JsError
  ui : UiState
deriving DecidableEq

/-- Embedding of `processStreams` (index.ts lines 137-160): install a
fresh `AbortController`, start both pumps, await the read pump; then
abort the scope, await the write pump, and await `port.close()`.  The
close call is not guarded by any try/catch: if it rejects, the rejection
escapes the async function and the statements after it — the six UI
resets, `connected = false`, the button relabel and the
`<DISCONNECTED>` line — never run, leaving the UI state `ui` it was
called with.  If close fulfils, the UI is reset and the line written. -/
def processStreams (readEnv : List ReadStep) (writeEnv : List WriteStep)
    (closeResult : Option JsError) (ui : UiState) : RunResult :=
  let readTrace := (processReadableStream readEnv).map RunEvent.readEv
  let writeTrace := processWritableStream writeEnv
  match closeResult with
  | some e =>
    { ctrlTrace := readTrace ++
        [RunEvent.abortScope, RunEvent.awaitWritePump, RunEvent.closeCall],
      writeTrace := writeTrace, escape := some e, ui := ui }
  | none =>
    { ctrlTrace := readTrace ++
        [RunEvent.abortScope, RunEvent.awaitWritePump, RunEvent.closeCall,
          RunEvent.uiReset, RunEvent.writeln disconnectedLine],
      writeTrace := writeTrace, escape := none, ui := disconnectedUi }

/-- Characters `Number.parseInt` skips as leading whitespace. -/
def isJsSpace (c : Char) : Bool :=
  c = ' ' || c = '\t' || c = '\n' || c = '\r' ||
    c = Char.ofNat 11 || c = Char.ofNat 12

/-- Value of a decimal digit character, if it is one (code points 48-57). -/
def decDigit (c : Char) : Option Nat :=
  let n := c.toNat
  if 48 ≤ n ∧ n ≤ 57 then some (n - 48) else none

/-- Value of a hexadecimal digit character, if it is one: decimal
digits, then lowercase a-f (code points 97-102), then uppercase A-F
(code points 65-70). -/
def hexDigit (c : Char) : Option Nat :=
  let n := c.toNat
  if 48 ≤ n ∧ n ≤ 57 then some (n - 48)
  else if 97 ≤ n ∧ n ≤ 102 then some (n - 87)
  else if 65 ≤ n ∧ n ≤ 70 then some (n - 55)
  else none

/-- Longest prefix of digit values recognised by `digit`. -/
def takeDigits (digit : Char → Option Nat) : List Char → List Nat
  | [] => []
  | c :: cs =>
    match digit c with
    | some d => d :: takeDigits digit cs
    | none => []

/-- Value of a digit list read in the given base, most significant first. -/
def digitsValue (base : Nat) (ds : List Nat) : Nat :=
  ds.foldl (fun a d => a * base + d) 0

/-- Digit-prefix step of `Number.parseInt` after sign handling: a `0x`
or `0X` prefix switches to hexadecimal, otherwise the longest decimal
digit prefix is read; no digit at all yields NaN, modelled as `none`. -/
def jsParseIntDigits : List Char → Option Nat
  | '0' :: 'x' :: cs =>
    let ds := takeDigits hexDigit cs
    if ds.isEmpty then none else some (digitsValue 16 ds)
  | '0' :: 'X' :: cs =>
    let ds := takeDigits hexDigit cs
    if ds.isEmpty then none else some (digitsValue 16 ds)
  | cs =>
    let ds := takeDigits decDigit cs
    if ds.isEmpty then none else some (digitsValue 10 ds)

/-- Model of JavaScript `Number.parseInt` with no radix argument: skip
leading whitespace, read an optional sign, then the digit prefix; `none`
models the NaN result.  The source calls it on the selector and input
`value` strings and never checks the result. -/
def jsParseInt (s : String) : Option Int :=
  let cs := s.data.dropWhile isJsSpace
  match cs with
  | '-' :: rest => (jsParseIntDigits rest).map (fun n => -(n : Int))
  | '+' :: rest => (jsParseIntDigits rest).map (fun n => (n : Int))
  | rest => (jsParseIntDigits rest).map (fun n => (n : Int))

/-- Values of the configuration form controls read by the connect path. -/
structure FormState where
  baudRateSelectorValue : String
  customBaudRateValue : String
  dataBitsValue : String
  parityValue : String
  stopBitsValue : String
  flowControlChecked : Bool
deriving DecidableEq

/-- Embedding of `getSelectedBaudRate` (index.ts lines 130-135). -/
def getSelectedBaudRate (f : FormState) : Option Int :=
  if f.baudRateSelectorValue == "custom" then
    jsParseInt f.customBaudRateValue
  else
    jsParseInt f.baudRateSelectorValue

/-- Options object built by `connectToPort` and passed to `port.open`
(index.ts lines 108-115); `none` in a numeric field models NaN. -/
structure SerialOptions where
  baudrate : Option Int
  databits : Option Int
  parity : String
  stopbits : Option Int
  rtscts : Bool
deriving DecidableEq

/-- Options `connectToPort` passes to `port.open`, built directly from
the form controls with no validation. -/
def connectOptions (f : FormState) : SerialOptions :=
  { baudrate := getSelectedBaudRate f,
    databits := jsParseInt f.dataBitsValue,
    parity := f.parityValue,
    stopbits := jsParseInt f.stopBitsValue,
    rtscts := f.flowControlChecked }

/-- Outcome of `navigator.serial.requestPort`: a port, or a rejection
(user cancellation surfaces as an error named NotFoundError). -/
inductive RequestPortResult
  | granted
  | denied (e : JsError)
deriving DecidableEq

/-- Observable outcome of one click on Connect: the lines written to the
terminal, the resulting UI state, and whether a duplex session was
started (`processStreams` invoked). -/
structure ConnectAttempt where
  lines : List String
  ui : UiState
  sessionStarted : Bool
deriving DecidableEq

/-- Embedding of `connectToPort` (index.ts lines 107-128) given the
settlement of `port.open`: on rejection the function throws before any
UI mutation; on fulfilment it sets the connected UI state, writes
`<CONNECTED>` and starts `processStreams` (without awaiting it). -/
def connectToPort (openResult : Option JsError) (ui : UiState) :
    ConnectAttempt × Option JsError :=
  match openResult with
  | some e => ({ lines := [], ui := ui, sessionStarted := false }, some e)
  | none =>
    ({ lines := [connectedLine], ui := connectedUi,
       sessionStarted := true }, none)

/-- Embedding of `requestNewPort` (index.ts lines 96-105): await the
port request, then `connectToPort`; any rejection from either await is
caught here, and a connect-error line is written unless the error is
named NotFoundError. -/
def requestNewPort (req : RequestPortResult) (openResult : Option JsError)
    (ui : UiState) : ConnectAttempt :=
  match req with
  | RequestPortResult.denied e =>
    if e.name != "NotFoundError" then
      { lines := [connectErrorLine e.message], ui := ui,
        sessionStarted := false }
    else
      { lines := [], ui := ui, sessionStarted := false }
  | RequestPortResult.granted =>
    match connectToPort openResult ui with
    | (a, none) => a
    | (a, some e) =>
      if e.name != "NotFoundError" then
        { lines := a.lines ++ [connectErrorLine e.message], ui := a.ui,
          sessionStarted := a.sessionStarted }
      else a

/-- Recogniser for a terminal line written by the read pump. -/
def isReadWriteln : ReadEvent → Bool
  | ReadEvent.writeln _ => true
  | _ => false

/-- Recogniser for a transfer attempt of the read pump. -/
def isReadTransfer : ReadEvent → Bool
  | ReadEvent.transfer _ => true
  | _ => false

/-- Holds when a read-pump trace performs no further transfer attempt
after an error line has been written — the formal shape of "a read error
is fatal: the pump does not re-enter its transfer loop". -/
def fatalAfterReadError : List ReadEvent → Bool
  | [] => true
  | ev :: rest =>
    if isReadWriteln ev then rest.all (fun x => !isReadTransfer x)
    else fatalAfterReadError rest

/-- Recogniser for the start of an echo fan-out pipe. -/
def isEchoStart : WriteEvent → Bool
  | WriteEvent.echoStart _ => true
  | _ => false

/-- Recogniser for the abort of a per-iteration echo controller. -/
def isEchoAbort : WriteEvent → Bool
  | WriteEvent.echoAbort => true
  | _ => false

/-- Recogniser for the awaited, swallowed settlement of an echo pipe. -/
def isEchoSettled : WriteEvent → Bool
  | WriteEvent.echoSettled => true
  | _ => false

/-- Holds when a pipe settlement is either fulfilment or a rejection
named AbortError — the settlements cancellation can produce. -/
def isAbortOnly : PipeResult → Bool
  | PipeResult.completed => true
  | PipeResult.rejected e => e.name == "AbortError"

/-- Read-pump environment in which a transfer rejects with a non-abort
error while `port.readable` stays truthy and the scope uncancelled, and
the next check still sees the read side available. -/
def reentryReadEnv : List ReadStep :=
  [{ readable := true, aborted := false,
     result := PipeResult.rejected
       { name := "BufferOverrunError", message := "buffer overrun" } },
   { readable := true, aborted := false, result := PipeResult.completed }]

/-- Rejection of `port.close()` used to exercise the teardown tail. -/
def closeFail : JsError := { name := "NetworkError", message := "close failed" }

/-- Read-pump environment with one completed transfer followed by the
read side becoming unavailable. -/
def oneChunkReadEnv : List ReadStep :=
  [{ readable := true, aborted := false, result := PipeResult.completed },
   { readable := false, aborted := false, result := PipeResult.completed }]

/-- Distinct rejection of `port.close()` for the teardown-order run. -/
def closeFailLate : JsError :=
  { name := "InvalidStateError", message := "already closed" }

/-! Helper lemmas shared by the claim theorems. -/

/-- The read pump's trace is empty exactly when the first loop check
fails: `port.readable` falsy or the signal already aborted. -/
theorem processReadableStream_cons_eq_nil_iff (t : ReadStep)
    (ts : List ReadStep) :
    processReadableStream (t :: ts) = [] ↔
      (t.readable && !t.aborted) = false := by
  by_cases h : (t.readable && !t.aborted) = true
  · simp [processReadableStream, h]
  · simp only [Bool.not_eq_true] at h
    simp [processReadableStream, h]

/-- The write pump's trace is empty exactly when the first loop check
fails: `port.writable` falsy or the signal already aborted. -/
theorem processWritableStream_cons_eq_nil_iff (t : WriteStep)
    (ts : List WriteStep) :
    processWritableStream (t :: ts) = [] ↔
      (t.writable && !t.aborted) = false := by
  by_cases h : (t.writable && !t.aborted) = true
  · simp [processWritableStream, h]
  · simp only [Bool.not_eq_true] at h
    simp [processWritableStream, h]

/-- Controller-level terminal lines never occur among the wrapped
read-pump events of the controller trace. -/
theorem writeln_not_mem_map_readEv (l : List ReadEvent) (s : String) :
    RunEvent.writeln s ∉ l.map RunEvent.readEv := by
  intro h
  rcases List.mem_map.mp h with ⟨ev, _, hev⟩
  exact RunEvent.noConfusion hev

/-- Chunk lists rendered by the echo sink concatenate over delivery
lists. -/
theorem echoRendered_append (xs ys : List (Bool × List Nat)) :
    echoRendered (xs ++ ys) = echoRendered xs ++ echoRendered ys := by
  induction xs with
  | nil => rfl
  | cons d rest ih => simp [echoRendered, ih]

/-- The echo sink renders exactly the chunks whose delivery-time flag is
set, in order. -/
theorem echoRendered_eq_filter (ds : List (Bool × List Nat)) :
    echoRendered ds = (ds.filter (fun d => d.1)).map (fun d => d.2) := by
  induction ds with
  | nil => rfl
  | cons d rest ih =>
    rcases d with ⟨flag, c⟩
    cases flag <;> simp [echoRendered, termInputFromEcho, ih]

/-- Members of a write-pump catch-clause list are terminal lines. -/
theorem writeCatchLines_writeln (r : PipeResult) (x : WriteEvent)
    (h : x ∈ writeCatchLines r) : ∃ t, x = WriteEvent.writeln t := by
  cases r with
  | completed => exact absurd h (List.not_mem_nil x)
  | rejected e =>
    by_cases hn : (e.name != "AbortError") = true
    · simp only [writeCatchLines, hn, if_true, List.mem_singleton] at h
      exact ⟨_, h⟩
    · simp only [Bool.not_eq_true] at hn
      simp [writeCatchLines, hn] at h

/-- Members of a read-pump catch-clause list are terminal lines. -/
theorem readCatchLines_writeln (r : PipeResult) (x : ReadEvent)
    (h : x ∈ readCatchLines r) : ∃ t, x = ReadEvent.writeln t := by
  cases r with
  | completed => exact absurd h (List.not_mem_nil x)
  | rejected e =>
    by_cases hn : (e.name != "AbortError") = true
    · simp only [readCatchLines, hn, if_true, List.mem_singleton] at h
      exact ⟨_, h⟩
    · simp only [Bool.not_eq_true] at hn
      simp [readCatchLines, hn] at h

/-- Settlements that cancellation can produce make the read pump's catch
clause write nothing. -/
theorem readCatchLines_of_abortOnly (r : PipeResult)
    (h : isAbortOnly r = true) : readCatchLines r = [] := by
  cases r with
  | completed => rfl
  | rejected e =>
    simp only [isAbortOnly] at h
    simp [readCatchLines, bne, h]

/-- Settlements that cancellation can produce make the write pump's
catch clause write nothing. -/
theorem writeCatchLines_of_abortOnly (r : PipeResult)
    (h : isAbortOnly r = true) : writeCatchLines r = [] := by
  cases r with
  | completed => rfl
  | rejected e =>
    simp only [isAbortOnly] at h
    simp [writeCatchLines, bne, h]

/-- Every echo fan-out the write pump starts carries the source's
option set: all three prevent flags, bound to the local controller. -/
theorem echoStart_options (wEnv : List WriteStep) (o : PipeOptions)
    (h : WriteEvent.echoStart o ∈ processWritableStream wEnv) :
    o = echoPipeOptions := by
  induction wEnv with
  | nil => exact absurd h (List.not_mem_nil _)
  | cons s rest ih =>
    by_cases hc : (s.writable && !s.aborted) = true
    · simp only [processWritableStream, hc, if_true, List.mem_cons,
        List.mem_append] at h
      rcases h with h1 | h2 | h3 | h4 | h5 | h6
      · exact WriteEvent.echoStart.inj h1
      · exact WriteEvent.noConfusion h2
      · obtain ⟨t, ht⟩ := writeCatchLines_writeln s.result _ h3
        exact WriteEvent.noConfusion ht
      · exact WriteEvent.noConfusion h4
      · exact WriteEvent.noConfusion h5
      · exact ih h6
    · simp only [Bool.not_eq_true] at hc
      simp [processWritableStream, hc] at h

/-- Catch-clause lists contribute nothing to a count of non-writeln
events. -/
theorem countP_writeCatchLines (r : PipeResult) (p : WriteEvent → Bool)
    (hp : ∀ t, p (WriteEvent.writeln t) = false) :
    (writeCatchLines r).countP p = 0 := by
  cases r with
  | completed => rfl
  | rejected e =>
    by_cases hn : (e.name != "AbortError") = true
    · simp [writeCatchLines, hn, List.countP_cons, hp]
    · simp only [Bool.not_eq_true] at hn
      simp [writeCatchLines, hn]

/-- The write pump aborts and settles exactly one local echo controller
for every echo fan-out it starts: no sub-scope leaks past its
iteration's `finally` block. -/
theorem echo_scopes_balanced (wEnv : List WriteStep) :
    (processWritableStream wEnv).countP isEchoStart =
        (processWritableStream wEnv).countP isEchoAbort ∧
      (processWritableStream wEnv).countP isEchoAbort =
        (processWritableStream wEnv).countP isEchoSettled := by
  induction wEnv with
  | nil => exact ⟨rfl, rfl⟩
  | cons s rest ih =>
    obtain ⟨ih1, ih2⟩ := ih
    by_cases hc : (s.writable && !s.aborted) = true
    · simp only [processWritableStream, hc, if_true, List.countP_cons,
        List.countP_append,
        countP_writeCatchLines s.result isEchoStart (fun _ => rfl),
        countP_writeCatchLines s.result isEchoAbort (fun _ => rfl),
        countP_writeCatchLines s.result isEchoSettled (fun _ => rfl)]
      cases hr : s.result <;>
        simp only [isEchoStart, isEchoAbort, isEchoSettled] <;>
        omega
    · simp only [Bool.not_eq_true] at hc
      simp [processWritableStream, hc]

/-- Environments whose every check sees the scope cancelled drive the
write pump straight out of its loop. -/
theorem processWritableStream_of_aborted (wEnv : List WriteStep)
    (h : ∀ t ∈ wEnv, t.aborted = true) :
    processWritableStream wEnv = [] := by
  cases wEnv with
  | nil => rfl
  | cons s rest =>
    have hs := h s (List.mem_cons_self s rest)
    simp [processWritableStream, hs]

/-- Cancellation-only settlements make the read pump write no terminal
line at all. -/
theorem read_no_writeln_of_abortOnly (rEnv : List ReadStep) (t : String) :
    (∀ s ∈ rEnv, isAbortOnly s.result = true) →
      ReadEvent.writeln t ∉ processReadableStream rEnv := by
  induction rEnv with
  | nil => exact fun _ => List.not_mem_nil _
  | cons s rest ih =>
    intro h
    have hs := h s (List.mem_cons_self s rest)
    have hrest := fun x hx => h x (List.mem_cons_of_mem s hx)
    by_cases hc : (s.readable && !s.aborted) = true
    · simp only [processReadableStream, hc, if_true,
        readCatchLines_of_abortOnly s.result hs, List.nil_append,
        List.mem_cons]
      intro hmem
      rcases hmem with h1 | h2
      · exact ReadEvent.noConfusion h1
      · exact ih hrest h2
    · simp only [Bool.not_eq_true] at hc
      simp [processReadableStream, hc]

/-- Cancellation-only settlements make the write pump write no terminal
line at all. -/
theorem write_no_writeln_of_abortOnly (wEnv : List WriteStep) (t : String) :
    (∀ s ∈ wEnv, isAbortOnly s.result = true) →
      WriteEvent.writeln t ∉ processWritableStream wEnv := by
  induction wEnv with
  | nil => exact fun _ => List.not_mem_nil _
  | cons s rest ih =>
    intro h
    have hs := h s (List.mem_cons_self s rest)
    have hrest := fun x hx => h x (List.mem_cons_of_mem s hx)
    by_cases hc : (s.writable && !s.aborted) = true
    · simp only [processWritableStream, hc, if_true,
        writeCatchLines_of_abortOnly s.result hs, List.nil_append,
        List.mem_cons]
      intro hmem
      rcases hmem with h1 | h2 | h3 | h4 | h5
      · exact WriteEvent.noConfusion h1
      · exact WriteEvent.noConfusion h2
      · exact WriteEvent.noConfusion h3
      · exact WriteEvent.noConfusion h4
      · exact ih hrest h5
    · simp only [Bool.not_eq_true] at hc
      simp [processWritableStream, hc]

/-! Claim theorems. -/

/-- C1, counterexample: a non-AbortError read failure is not fatal for
the pump.  In the environment `reentryReadEnv` the first transfer
rejects with a buffer-overrun error; the pump writes the read-error line
and then, since `port.readable` is still truthy and the signal not
aborted, re-enters its transfer loop and performs another transfer, so
the trace violates `fatalAfterReadError`. -/
theorem read_error_not_fatal :
    processReadableStream reentryReadEnv =
      [ReadEvent.transfer (PipeResult.rejected
          { name := "BufferOverrunError", message := "buffer overrun" }),
       ReadEvent.writeln "<READ ERROR: buffer overrun>",
       ReadEvent.transfer PipeResult.completed]
    ∧ fatalAfterReadError (processReadableStream reentryReadEnv) = false := by
  decide

/-- C1, amended: on a non-AbortError read failure the pump writes the
read-error line; it then re-tests its loop condition and exits exactly
when the read side has become unavailable or the scope is cancelled,
re-entering the transfer loop otherwise; and whatever ends the pump, the
controller's teardown (starting with the scope abort) follows the pump's
events. -/
theorem read_error_reported_then_condition_rechecked
    (s : ReadStep) (rest : List ReadStep) (e : JsError)
    (hr : s.readable = true) (ha : s.aborted = false)
    (hres : s.result = PipeResult.rejected e)
    (hname : e.name ≠ "AbortError") :
    processReadableStream (s :: rest) =
      ReadEvent.transfer (PipeResult.rejected e) ::
        ReadEvent.writeln (readErrorLine e.message) ::
        processReadableStream rest
    ∧ (∀ t ts, rest = t :: ts →
        (processReadableStream rest = [] ↔
          (t.readable && !t.aborted) = false))
    ∧ (∀ wEnv closeResult ui, ∃ tail,
        (processStreams (s :: rest) wEnv closeResult ui).ctrlTrace =
          (processReadableStream (s :: rest)).map RunEvent.readEv ++
            RunEvent.abortScope :: tail) := by
  refine ⟨?_, ?_, ?_⟩
  · simp [processReadableStream, hr, ha, hres, readCatchLines, hname]
  · intro t ts hrest
    subst hrest
    exact processReadableStream_cons_eq_nil_iff t ts
  · intro wEnv closeResult ui
    cases closeResult with
    | some e' => exact ⟨[RunEvent.awaitWritePump, RunEvent.closeCall], rfl⟩
    | none =>
      exact ⟨[RunEvent.awaitWritePump, RunEvent.closeCall,
        RunEvent.uiReset, RunEvent.writeln disconnectedLine], rfl⟩

/-- Witness for `read_error_reported_then_condition_rechecked` at a
concrete failing transfer. -/
theorem read_error_reported_then_condition_rechecked_witness :
    processReadableStream
        [{ readable := true, aborted := false,
           result := PipeResult.rejected
             { name := "TypeError", message := "boom" } }] =
      ReadEvent.transfer (PipeResult.rejected
          { name := "TypeError", message := "boom" }) ::
        ReadEvent.writeln (readErrorLine "boom") ::
        processReadableStream []
    ∧ (∀ t ts, ([] : List ReadStep) = t :: ts →
        (processReadableStream [] = [] ↔
          (t.readable && !t.aborted) = false))
    ∧ (∀ wEnv closeResult ui, ∃ tail,
        (processStreams
            [{ readable := true, aborted := false,
               result := PipeResult.rejected
                 { name := "TypeError", message := "boom" } }]
            wEnv closeResult ui).ctrlTrace =
          (processReadableStream
              [{ readable := true, aborted := false,
                 result := PipeResult.rejected
                   { name := "TypeError", message := "boom" } }]).map
              RunEvent.readEv ++ RunEvent.abortScope :: tail) :=
  read_error_reported_then_condition_rechecked
    { readable := true, aborted := false,
      result := PipeResult.rejected { name := "TypeError", message := "boom" } }
    [] { name := "TypeError", message := "boom" }
    rfl rfl rfl (by decide)

/-- C2, counterexample: when `port.close()` rejects, the rejection
escapes `processStreams` unguarded — the close failure is not reported
(no line is written at all in the controller trace), the UI is not reset
(the state stays `connectedUi`) and the display is not notified, so
teardown does not run all four steps. -/
theorem close_failure_blocks_ui_reset :
    (processStreams [] [] (some closeFail) connectedUi).ctrlTrace =
      [RunEvent.abortScope, RunEvent.awaitWritePump, RunEvent.closeCall]
    ∧ (processStreams [] [] (some closeFail) connectedUi).escape =
        some closeFail
    ∧ (processStreams [] [] (some closeFail) connectedUi).ui = connectedUi
    ∧ RunEvent.uiReset ∉
        (processStreams [] [] (some closeFail) connectedUi).ctrlTrace
    ∧ RunEvent.writeln disconnectedLine ∉
        (processStreams [] [] (some closeFail) connectedUi).ctrlTrace := by
  decide

/-- C2, amended: after the read pump exits, the scope abort, the await
of the write pump and the close call always run, in that order; when the
close fulfils, the UI reset and the disconnected notification follow;
but when the close rejects, the rejection escapes the run unreported —
no terminal line is written by the controller — and the UI state is left
unchanged, not reset to disconnected. -/
theorem teardown_stops_at_failed_close (rEnv : List ReadStep)
    (wEnv : List WriteStep) (ui : UiState) (e : JsError) :
    (processStreams rEnv wEnv (some e) ui).ctrlTrace =
      (processReadableStream rEnv).map RunEvent.readEv ++
        [RunEvent.abortScope, RunEvent.awaitWritePump, RunEvent.closeCall]
    ∧ (processStreams rEnv wEnv (some e) ui).escape = some e
    ∧ (processStreams rEnv wEnv (some e) ui).ui = ui
    ∧ (∀ t, RunEvent.writeln t ∉
        (processStreams rEnv wEnv (some e) ui).ctrlTrace)
    ∧ (processStreams rEnv wEnv none ui).ctrlTrace =
        (processReadableStream rEnv).map RunEvent.readEv ++
          [RunEvent.abortScope, RunEvent.awaitWritePump, RunEvent.closeCall,
            RunEvent.uiReset, RunEvent.writeln disconnectedLine]
    ∧ (processStreams rEnv wEnv none ui).ui = disconnectedUi := by
  refine ⟨rfl, rfl, rfl, ?_, rfl, rfl⟩
  intro t hmem
  rcases List.mem_append.mp hmem with h1 | h2
  · exact writeln_not_mem_map_readEv _ t h1
  · simp at h2

/-- Witness for `teardown_stops_at_failed_close` at a concrete close
failure. -/
theorem teardown_stops_at_failed_close_witness :
    (processStreams [] [] (some closeFail) connectedUi).ctrlTrace =
      (processReadableStream []).map RunEvent.readEv ++
        [RunEvent.abortScope, RunEvent.awaitWritePump, RunEvent.closeCall]
    ∧ (processStreams [] [] (some closeFail) connectedUi).escape =
        some closeFail
    ∧ (processStreams [] [] (some closeFail) connectedUi).ui = connectedUi
    ∧ (∀ t, RunEvent.writeln t ∉
        (processStreams [] [] (some closeFail) connectedUi).ctrlTrace)
    ∧ (processStreams [] [] none connectedUi).ctrlTrace =
        (processReadableStream []).map RunEvent.readEv ++
          [RunEvent.abortScope, RunEvent.awaitWritePump, RunEvent.closeCall,
            RunEvent.uiReset, RunEvent.writeln disconnectedLine]
    ∧ (processStreams [] [] none connectedUi).ui = disconnectedUi :=
  teardown_stops_at_failed_close [] [] connectedUi closeFail

/-- C3: the connect-error line written by `requestNewPort` is missing
its closing angle bracket — the template literal at index.ts line 102
ends with the message — while the spec and every other annotation
(`<CONNECTED>`, `<DISCONNECTED>`, `<READ ERROR: m>`, `<WRITE ERROR: m>`)
carry both brackets; this is evaluated at the concrete open failure
"access denied". -/
theorem connect_error_line_lacks_closing_bracket :
    (requestNewPort RequestPortResult.granted
        (some { name := "SecurityError", message := "access denied" })
        disconnectedUi).lines = ["<CONNECT ERROR: access denied"]
    ∧ connectErrorLine "access denied" = "<CONNECT ERROR: access denied"
    ∧ (connectErrorLine "access denied").data.getLast? = some 'd'
    ∧ (readErrorLine "access denied").data.getLast? = some '>'
    ∧ (writeErrorLine "access denied").data.getLast? = some '>'
    ∧ connectedLine = "<CONNECTED>"
    ∧ disconnectedLine = "<DISCONNECTED>" := by
  decide

/-- C4, counterexample: teardown does not always perform its fourth step
— in a run whose read pump saw one completed transfer and whose close
call rejects, the controller trace ends at the close call: no UI reset
and no disconnected notification follow. -/
theorem teardown_step_four_skipped :
    (processStreams oneChunkReadEnv [] (some closeFailLate)
        connectedUi).ctrlTrace =
      [RunEvent.readEv (ReadEvent.transfer PipeResult.completed),
       RunEvent.abortScope, RunEvent.awaitWritePump, RunEvent.closeCall]
    ∧ RunEvent.uiReset ∉
        (processStreams oneChunkReadEnv [] (some closeFailLate)
          connectedUi).ctrlTrace
    ∧ RunEvent.writeln disconnectedLine ∉
        (processStreams oneChunkReadEnv [] (some closeFailLate)
          connectedUi).ctrlTrace := by
  decide

/-- C4, amended: after the read pump's loop exits the controller
performs, in this exact order, (1) the scope abort, (2) the await of the
write pump's exit, (3) the transport close call, and — only when the
close fulfils — (4) the UI reset followed by the display notification;
no teardown step precedes the read pump's completion, every event before
the abort being a wrapped read-pump event. -/
theorem teardown_order_after_read_exit (rEnv : List ReadStep)
    (wEnv : List WriteStep) (closeResult : Option JsError) (ui : UiState) :
    ∃ tail,
      (processStreams rEnv wEnv closeResult ui).ctrlTrace =
        (processReadableStream rEnv).map RunEvent.readEv ++
          RunEvent.abortScope :: RunEvent.awaitWritePump ::
            RunEvent.closeCall :: tail
      ∧ (closeResult = none →
          tail = [RunEvent.uiReset, RunEvent.writeln disconnectedLine])
      ∧ (closeResult ≠ none → tail = [])
      ∧ (∀ x ∈ (processReadableStream rEnv).map RunEvent.readEv,
          ∃ ev, x = RunEvent.readEv ev) := by
  cases closeResult with
  | none =>
    refine ⟨[RunEvent.uiReset, RunEvent.writeln disconnectedLine], rfl,
      fun _ => rfl, fun h => absurd rfl h, ?_⟩
    intro x hx
    rcases List.mem_map.mp hx with ⟨ev, _, hev⟩
    exact ⟨ev, hev.symm⟩
  | some e =>
    refine ⟨[], rfl, ?_, fun _ => rfl, ?_⟩
    · intro h
      exact Option.noConfusion h
    · intro x hx
      rcases List.mem_map.mp hx with ⟨ev, _, hev⟩
      exact ⟨ev, hev.symm⟩

/-- Witness for `teardown_order_after_read_exit` on a concrete
successful run. -/
theorem teardown_order_after_read_exit_witness :
    ∃ tail,
      (processStreams oneChunkReadEnv [] none connectedUi).ctrlTrace =
        (processReadableStream oneChunkReadEnv).map RunEvent.readEv ++
          RunEvent.abortScope :: RunEvent.awaitWritePump ::
            RunEvent.closeCall :: tail
      ∧ ((none : Option JsError) = none →
          tail = [RunEvent.uiReset, RunEvent.writeln disconnectedLine])
      ∧ ((none : Option JsError) ≠ none → tail = [])
      ∧ (∀ x ∈ (processReadableStream oneChunkReadEnv).map RunEvent.readEv,
          ∃ ev, x = RunEvent.readEv ev) :=
  teardown_order_after_read_exit oneChunkReadEnv [] none connectedUi

/-- C5: the echo sink's write method reads the echo checkbox at the
moment each chunk is delivered, so the rendered chunks are exactly the
delivered chunks whose delivery-time flag was set, in order; appending
one more delivery after a mid-session toggle contributes that chunk
according to the new flag value alone. -/
theorem echo_gated_per_chunk (ds pre : List (Bool × List Nat))
    (flag : Bool) (c : List Nat) :
    echoRendered ds = (ds.filter (fun d => d.1)).map (fun d => d.2)
    ∧ echoRendered (pre ++ [(flag, c)]) =
        echoRendered pre ++ (if flag then [c] else []) := by
  refine ⟨echoRendered_eq_filter ds, ?_⟩
  rw [echoRendered_append]
  cases flag <;> simp [echoRendered, termInputFromEcho]

/-- Witness for `echo_gated_per_chunk` on a concrete delivery list with
a mid-session toggle. -/
theorem echo_gated_per_chunk_witness :
    echoRendered [(true, [97]), (false, [98]), (true, [99])] =
      (([(true, [97]), (false, [98]), (true, [99])]).filter
          (fun d => d.1)).map (fun d => d.2)
    ∧ echoRendered ([(true, [100])] ++ [(false, [101])]) =
        echoRendered [(true, [100])] ++
          (if false then [[101]] else []) :=
  echo_gated_per_chunk [(true, [97]), (false, [98]), (true, [99])]
    [(true, [100])] false [101]

/-- C6: a non-AbortError write failure makes the pump write the
write-error line inside that iteration, and the pump re-enters its loop
exactly when the next check sees the write side still available and the
shared scope not cancelled — a single write error does not by itself
end the pump's loop. -/
theorem write_error_reported_then_condition_rechecked
    (s t : WriteStep) (ts : List WriteStep) (e : JsError)
    (hw : s.writable = true) (ha : s.aborted = false)
    (hres : s.result = PipeResult.rejected e)
    (hname : e.name ≠ "AbortError") :
    processWritableStream (s :: t :: ts) =
      WriteEvent.echoStart echoPipeOptions ::
        WriteEvent.transfer (PipeResult.rejected e) ::
        WriteEvent.writeln (writeErrorLine e.message) ::
        WriteEvent.echoAbort :: WriteEvent.echoSettled ::
        processWritableStream (t :: ts)
    ∧ (processWritableStream (t :: ts) ≠ [] ↔
        (t.writable = true ∧ t.aborted = false)) := by
  constructor
  · simp [processWritableStream, hw, ha, hres, writeCatchLines, hname]
  · rw [ne_eq, processWritableStream_cons_eq_nil_iff]
    cases hwt : t.writable <;> cases hat : t.aborted <;> simp

/-- Witness for `write_error_reported_then_condition_rechecked` at a
concrete failing write followed by an available re-check. -/
theorem write_error_reported_then_condition_rechecked_witness :
    processWritableStream
        [{ writable := true, aborted := false,
           result := PipeResult.rejected
             { name := "NetworkError", message := "device lost" } },
         { writable := true, aborted := false,
           result := PipeResult.completed }] =
      WriteEvent.echoStart echoPipeOptions ::
        WriteEvent.transfer (PipeResult.rejected
          { name := "NetworkError", message := "device lost" }) ::
        WriteEvent.writeln (writeErrorLine "device lost") ::
        WriteEvent.echoAbort :: WriteEvent.echoSettled ::
        processWritableStream
          [{ writable := true, aborted := false,
             result := PipeResult.completed }]
    ∧ (processWritableStream
          [{ writable := true, aborted := false,
             result := PipeResult.completed }] ≠ [] ↔
        ((true : Bool) = true ∧ (false : Bool) = false)) :=
  write_error_reported_then_condition_rechecked
    { writable := true, aborted := false,
      result := PipeResult.rejected
        { name := "NetworkError", message := "device lost" } }
    { writable := true, aborted := false, result := PipeResult.completed }
    [] { name := "NetworkError", message := "device lost" }
    rfl rfl rfl (by decide)

/-- C7, counterexample: an open failure whose error is named
NotFoundError is silenced — `requestNewPort`'s catch filters on the
error name only, so this open failure (the port request itself was
granted) produces no connect-error line, against the claim that every
open failure other than a user-cancelled selection is reported. -/
theorem open_notfound_failure_silent :
    (requestNewPort RequestPortResult.granted
        (some { name := "NotFoundError", message := "device vanished" })
        disconnectedUi).lines = []
    ∧ (requestNewPort RequestPortResult.granted
        (some { name := "NotFoundError", message := "device vanished" })
        disconnectedUi).sessionStarted = false := by
  decide

/-- C7, amended: when the port request or the open step fails, no
session starts, the UI stays in the disconnected state and the
`connected` flag stays false; a rejection is reported with a
connect-error line exactly when its error name is not NotFoundError —
user cancellation of the selection surfaces as NotFoundError and is
silent, and an open failure named NotFoundError is silenced the same
way. -/
theorem open_failure_outcome (req : RequestPortResult)
    (openResult : Option JsError)
    (hfail : req = RequestPortResult.granted → openResult ≠ none) :
    (requestNewPort req openResult disconnectedUi).ui = disconnectedUi
    ∧ (requestNewPort req openResult disconnectedUi).sessionStarted = false
    ∧ (requestNewPort req openResult disconnectedUi).ui.connected = false
    ∧ (∀ e, req = RequestPortResult.denied e →
        (requestNewPort req openResult disconnectedUi).lines =
          if e.name != "NotFoundError" then [connectErrorLine e.message]
          else [])
    ∧ (∀ e, req = RequestPortResult.granted → openResult = some e →
        (requestNewPort req openResult disconnectedUi).lines =
          if e.name != "NotFoundError" then [connectErrorLine e.message]
          else []) := by
  cases req with
  | denied e0 =>
    refine ⟨?_, ?_, ?_, ?_, ?_⟩
    · by_cases hn : (e0.name != "NotFoundError") = true <;>
        simp [requestNewPort, hn]
    · by_cases hn : (e0.name != "NotFoundError") = true <;>
        simp [requestNewPort, hn]
    · by_cases hn : (e0.name != "NotFoundError") = true <;>
        simp [requestNewPort, hn, disconnectedUi]
    · intro e he
      injection he with he'
      subst he'
      by_cases hn : (e0.name != "NotFoundError") = true <;>
        simp [requestNewPort, hn]
    · intro e hg
      exact absurd hg (fun hx => RequestPortResult.noConfusion hx)
  | granted =>
    cases openResult with
    | none => exact absurd rfl (hfail rfl)
    | some e0 =>
      refine ⟨?_, ?_, ?_, ?_, ?_⟩
      · by_cases hn : (e0.name != "NotFoundError") = true <;>
          simp [requestNewPort, connectToPort, hn]
      · by_cases hn : (e0.name != "NotFoundError") = true <;>
          simp [requestNewPort, connectToPort, hn]
      · by_cases hn : (e0.name != "NotFoundError") = true <;>
          simp [requestNewPort, connectToPort, hn, disconnectedUi]
      · intro e he
        exact absurd he (fun hx => RequestPortResult.noConfusion hx)
      · intro e _ hsome
        injection hsome with he'
        subst he'
        by_cases hn : (e0.name != "NotFoundError") = true <;>
          simp [requestNewPort, connectToPort, hn]

/-- Witness for `open_failure_outcome` at a concrete denied open. -/
theorem open_failure_outcome_witness :
    (requestNewPort RequestPortResult.granted
        (some { name := "SecurityError", message := "access denied" })
        disconnectedUi).ui = disconnectedUi
    ∧ (requestNewPort RequestPortResult.granted
        (some { name := "SecurityError", message := "access denied" })
        disconnectedUi).sessionStarted = false
    ∧ (requestNewPort RequestPortResult.granted
        (some { name := "SecurityError", message := "access denied" })
        disconnectedUi).ui.connected = false
    ∧ (∀ e, RequestPortResult.granted = RequestPortResult.denied e →
        (requestNewPort RequestPortResult.granted
            (some { name := "SecurityError", message := "access denied" })
            disconnectedUi).lines =
          if e.name != "NotFoundError" then [connectErrorLine e.message]
          else [])
    ∧ (∀ e, RequestPortResult.granted = RequestPortResult.granted →
        (some { name := "SecurityError", message := "access denied" } :
            Option JsError) = some e →
        (requestNewPort RequestPortResult.granted
            (some { name := "SecurityError", message := "access denied" })
            disconnectedUi).lines =
          if e.name != "NotFoundError" then [connectErrorLine e.message]
          else []) :=
  open_failure_outcome RequestPortResult.granted
    (some { name := "SecurityError", message := "access denied" })
    (fun _ => Option.some_ne_none _)

/-- C8: the echo fan-out is a side-tap — every echo pipe the write pump
starts carries all three prevent flags, so by the pipe semantics it
never cancels its source (the shared keystroke branch) nor aborts or
closes its sink; every started echo sub-scope is aborted and its
settlement awaited (outcome swallowed) within its own iteration; and
when the shared scope is cancelled mid-transfer the iteration ends with
the local abort and swallowed settlement and the loop exits. -/
theorem echo_side_tap_contract (s : WriteStep) (rest : List WriteStep)
    (e : JsError) (hw : s.writable = true) (ha : s.aborted = false)
    (hres : s.result = PipeResult.rejected e)
    (hname : e.name = "AbortError")
    (hrest : ∀ t ∈ rest, t.aborted = true) :
    (∀ wEnv o, WriteEvent.echoStart o ∈ processWritableStream wEnv →
        o = echoPipeOptions)
    ∧ pipeAbortEffects echoPipeOptions =
        { sourceCancelled := false, destAborted := false,
          destClosed := false }
    ∧ pipeSourceCloseEffects echoPipeOptions =
        { sourceCancelled := false, destAborted := false,
          destClosed := false }
    ∧ (∀ wEnv, (processWritableStream wEnv).countP isEchoStart =
          (processWritableStream wEnv).countP isEchoAbort ∧
        (processWritableStream wEnv).countP isEchoAbort =
          (processWritableStream wEnv).countP isEchoSettled)
    ∧ processWritableStream (s :: rest) =
        [WriteEvent.echoStart echoPipeOptions,
         WriteEvent.transfer (PipeResult.rejected e),
         WriteEvent.echoAbort, WriteEvent.echoSettled] := by
  refine ⟨echoStart_options, rfl, rfl, echo_scopes_balanced, ?_⟩
  have hnil : processWritableStream rest = [] :=
    processWritableStream_of_aborted rest hrest
  simp [processWritableStream, hw, ha, hres, writeCatchLines, hname, hnil]

/-- Witness for `echo_side_tap_contract` at a concrete cancelled
transfer. -/
theorem echo_side_tap_contract_witness :
    (∀ wEnv o, WriteEvent.echoStart o ∈ processWritableStream wEnv →
        o = echoPipeOptions)
    ∧ pipeAbortEffects echoPipeOptions =
        { sourceCancelled := false, destAborted := false,
          destClosed := false }
    ∧ pipeSourceCloseEffects echoPipeOptions =
        { sourceCancelled := false, destAborted := false,
          destClosed := false }
    ∧ (∀ wEnv, (processWritableStream wEnv).countP isEchoStart =
          (processWritableStream wEnv).countP isEchoAbort ∧
        (processWritableStream wEnv).countP isEchoAbort =
          (processWritableStream wEnv).countP isEchoSettled)
    ∧ processWritableStream
        [{ writable := true, aborted := false,
           result := PipeResult.rejected
             { name := "AbortError", message := "aborted" } },
         { writable := true, aborted := true,
           result := PipeResult.completed }] =
        [WriteEvent.echoStart echoPipeOptions,
         WriteEvent.transfer (PipeResult.rejected
           { name := "AbortError", message := "aborted" }),
         WriteEvent.echoAbort, WriteEvent.echoSettled] :=
  echo_side_tap_contract
    { writable := true, aborted := false,
      result := PipeResult.rejected
        { name := "AbortError", message := "aborted" } }
    [{ writable := true, aborted := true,
       result := PipeResult.completed }]
    { name := "AbortError", message := "aborted" }
    rfl rfl rfl rfl (by decide)

/-- C9: when every settlement either fulfils or rejects with an error
named AbortError — the outcomes cancellation produces — neither pump
writes any terminal line (no read-error or write-error annotation), and
the run completes teardown with nothing escaping: cancellation is a
silent exit for both pumps. -/
theorem cancellation_silent_exit (rEnv : List ReadStep)
    (wEnv : List WriteStep) (ui : UiState)
    (hr : ∀ s ∈ rEnv, isAbortOnly s.result = true)
    (hw : ∀ s ∈ wEnv, isAbortOnly s.result = true) :
    (∀ t, ReadEvent.writeln t ∉ processReadableStream rEnv)
    ∧ (∀ t, WriteEvent.writeln t ∉ processWritableStream wEnv)
    ∧ (processStreams rEnv wEnv none ui).escape = none
    ∧ (processStreams rEnv wEnv none ui).ui = disconnectedUi :=
  ⟨fun t => read_no_writeln_of_abortOnly rEnv t hr,
    fun t => write_no_writeln_of_abortOnly wEnv t hw, rfl, rfl⟩

/-- Witness for `cancellation_silent_exit` at a concrete cancelled
run. -/
theorem cancellation_silent_exit_witness :
    (∀ t, ReadEvent.writeln t ∉ processReadableStream
        [{ readable := true, aborted := false,
           result := PipeResult.completed },
         { readable := true, aborted := false,
           result := PipeResult.rejected
             { name := "AbortError", message := "aborted" } }])
    ∧ (∀ t, WriteEvent.writeln t ∉ processWritableStream
        [{ writable := true, aborted := false,
           result := PipeResult.rejected
             { name := "AbortError", message := "aborted" } }])
    ∧ (processStreams
        [{ readable := true, aborted := false,
           result := PipeResult.completed },
         { readable := true, aborted := false,
           result := PipeResult.rejected
             { name := "AbortError", message := "aborted" } }]
        [{ writable := true, aborted := false,
           result := PipeResult.rejected
             { name := "AbortError", message := "aborted" } }]
        none connectedUi).escape = none
    ∧ (processStreams
        [{ readable := true, aborted := false,
           result := PipeResult.completed },
         { readable := true, aborted := false,
           result := PipeResult.rejected
             { name := "AbortError", message := "aborted" } }]
        [{ writable := true, aborted := false,
           result := PipeResult.rejected
             { name := "AbortError", message := "aborted" } }]
        none connectedUi).ui = disconnectedUi :=
  cancellation_silent_exit _ _ connectedUi (by decide) (by decide)

/-- C10: the selected baud rate is the JavaScript integer parse of the
custom input exactly when the selector's value is the string "custom",
and of the selector's value otherwise; the result is stored as the
`baudrate` field of the open options with no NaN or range check, and a
non-numeric input parses to NaN (modelled `none`). -/
theorem baud_rate_selection_passthrough (f g : FormState)
    (hg : g.baudRateSelectorValue = "custom")
    (hf : f.baudRateSelectorValue ≠ "custom") :
    getSelectedBaudRate g = jsParseInt g.customBaudRateValue
    ∧ getSelectedBaudRate f = jsParseInt f.baudRateSelectorValue
    ∧ (connectOptions g).baudrate = getSelectedBaudRate g
    ∧ (connectOptions f).baudrate = getSelectedBaudRate f
    ∧ jsParseInt "not a number" = none
    ∧ jsParseInt "9600" = some 9600
    ∧ (connectOptions g).baudrate = jsParseInt g.customBaudRateValue := by
  refine ⟨?_, ?_, rfl, rfl, by decide, by decide, ?_⟩
  · simp [getSelectedBaudRate, hg]
  · simp [getSelectedBaudRate, hf]
  · simp [connectOptions, getSelectedBaudRate, hg]

/-- Witness for `baud_rate_selection_passthrough` with a custom
non-numeric input and a stock selector value. -/
theorem baud_rate_selection_passthrough_witness :
    getSelectedBaudRate
        { baudRateSelectorValue := "custom", customBaudRateValue := "abc",
          dataBitsValue := "8", parityValue := "none",
          stopBitsValue := "1", flowControlChecked := false } =
      jsParseInt "abc"
    ∧ getSelectedBaudRate
        { baudRateSelectorValue := "9600", customBaudRateValue := "",
          dataBitsValue := "8", parityValue := "none",
          stopBitsValue := "1", flowControlChecked := true } =
      jsParseInt "9600"
    ∧ (connectOptions
        { baudRateSelectorValue := "custom", customBaudRateValue := "abc",
          dataBitsValue := "8", parityValue := "none",
          stopBitsValue := "1", flowControlChecked := false }).baudrate =
      getSelectedBaudRate
        { baudRateSelectorValue := "custom", customBaudRateValue := "abc",
          dataBitsValue := "8", parityValue := "none",
          stopBitsValue := "1", flowControlChecked := false }
    ∧ (connectOptions
        { baudRateSelectorValue := "9600", customBaudRateValue := "",
          dataBitsValue := "8", parityValue := "none",
          stopBitsValue := "1", flowControlChecked := true }).baudrate =
      getSelectedBaudRate
        { baudRateSelectorValue := "9600", customBaudRateValue := "",
          dataBitsValue := "8", parityValue := "none",
          stopBitsValue := "1", flowControlChecked := true }
    ∧ jsParseInt "not a number" = none
    ∧ jsParseInt "9600" = some 9600
    ∧ (connectOptions
        { baudRateSelectorValue := "custom", customBaudRateValue := "abc",
          dataBitsValue := "8", parityValue := "none",
          stopBitsValue := "1", flowControlChecked := false }).baudrate =
      jsParseInt "abc" :=
  baud_rate_selection_passthrough
    { baudRateSelectorValue := "9600", customBaudRateValue := "",
      dataBitsValue := "8", parityValue := "none",
      stopBitsValue := "1", flowControlChecked := true }
    { baudRateSelectorValue := "custom", customBaudRateValue := "abc",
      dataBitsValue := "8", parityValue := "none",
      stopBitsValue := "1", flowControlChecked := false }
    rfl (by decide)

end SerialTerminal
